import Mathlib

/-!
Verification of the maegashira reverse proxy (request-path engine).

This file shallowly embeds the parts of the source that the claims touch:

* `src/unnamed/part_006` (worker process): `matchRoute`, the request handler
  pipeline (pre-processing middlewares, authentication gate, forward and
  static dispatch), `basicAuthenticationMiddleware`, transaction finalisation.
* `src/src/libs/routing-table.js`: the ajv routing-table schema,
  `setRoutingTable`, `getRoutingTable`.
* `src/src/libs/api.js`: `apiRequestHandler` (management API).

JavaScript strings are modelled as Lean `String` (with list-of-char helpers
for the operations the source uses), JavaScript timestamps as epoch
milliseconds (`Int`), fallible JavaScript code as `Except`/`Option`, and the
nondeterministic inputs of a request (registered middleware handlers, the
random load-balancing pick, the outcome of the upstream `fetch`, filesystem
contents) as explicit oracle parameters.
-/

set_option autoImplicit false

namespace Maegashira

/-- A path / header segment: a list of characters (JS strings are sequences
of UTF-16 units; the claims only involve characters where this coincides
with Lean `Char`). -/
abbrev Seg := List Char

/-- Splitting a character list at every separator character, JavaScript
`String.prototype.split(sep)` style: always returns at least one (possibly
empty) segment, and keeps empty segments. -/
def splitListOn (p : Char → Bool) : List Char → List Seg
  | [] => [[]]
  | c :: cs =>
    if p c then [] :: splitListOn p cs
    else
      match splitListOn p cs with
      | [] => [[c]]
      | s :: ss => (c :: s) :: ss

/-- JavaScript `s.split(c)` on strings. -/
def splitOnChar (c : Char) (s : String) : List String :=
  (splitListOn (fun x => x = c) s.data).map (fun l => (⟨l⟩ : String))

/-- JavaScript `s.startsWith(pre)`. -/
def strStartsWith (s pre : String) : Bool :=
  pre.data.isPrefixOf s.data

/-- JavaScript `s.endsWith(suf)`. -/
def strEndsWith (s suf : String) : Bool :=
  suf.data.isSuffixOf s.data

/-- The suffix of `s` after dropping its first `n` characters. -/
def strDrop (s : String) (n : Nat) : String :=
  ⟨s.data.drop n⟩

/-- JavaScript `o || d` for an optional string `o`: the empty string is
falsy, so it also falls through to the default. -/
def jsOr (o : Option String) (d : String) : String :=
  match o with
  | some s => if s = "" then d else s
  | none => d

/-- JavaScript `l.replace(pat, '')` with a plain-string pattern: remove the
first (leftmost) occurrence of `pat`, if any (list version). -/
def replaceFirstL (pat : List Char) : List Char → List Char
  | [] => if pat.isPrefixOf ([] : List Char) then ([] : List Char).drop pat.length else []
  | c :: cs =>
    if pat.isPrefixOf (c :: cs) then (c :: cs).drop pat.length
    else c :: replaceFirstL pat cs

/-- JavaScript `s.replace(pat, '')` with a plain-string pattern. -/
def replaceFirst (pat s : String) : String :=
  ⟨replaceFirstL pat.data s.data⟩

/-! ## Routing-table data model (src/src/libs/routing-table.js typedefs) -/

/-- A dispatch target (`Target` typedef): `forward` with an absolute URL, or
`static` with a directory and an optional index file. (The `redirect`
variant is reserved in the source and rejected by the schema; no code path
dispatches it, so it is not part of the embedded variant.) -/
inductive Target where
  | forward (url : String)
  | static (directory : String) (index : Option String)
deriving DecidableEq, Repr

/-- The `Middlewares` typedef: ordered middleware keys for each phase. -/
structure Middlewares where
  preProcessing : List String
  postProcessing : List String
deriving DecidableEq, Repr

/-- The `AuthenticationStrategy` typedef. -/
inductive AuthenticationStrategy where
  | anonymous
  | basic (username password : String) (realm : Option String)
deriving DecidableEq, Repr

/-- The `LoadBalancingStrategy` typedef (only `random` exists). -/
inductive LoadBalancingStrategy where
  | random
deriving DecidableEq, Repr

/-- The `CacheStrategy` typedef (`no-cache` or `basic` with a ttl; the
dispatcher only ever records `no-cache`). -/
inductive CacheStrategy where
  | noCache
  | basic (ttl : Int)
deriving DecidableEq, Repr

/-- One routing-table entry (`Route` typedef). `timeout` is the per-route
upstream deadline in milliseconds. -/
structure Route where
  hostname : String
  path : String
  timeout : Option Int
  middlewares : Middlewares
  loadBalancingStrategy : Option LoadBalancingStrategy
  authenticationStrategy : Option AuthenticationStrategy
  cacheStrategy : Option CacheStrategy
  targets : List Target
deriving DecidableEq, Repr

/-- The route-matching predicate used by the loop body of `matchRoute`
(part_006 line 553): `route.hostname === hostname && path.startsWith(route.path)`. -/
def routeMatchesB (hostname path : String) (route : Route) : Bool :=
  route.hostname == hostname && strStartsWith path route.path

/-- `matchRoute` (part_006 lines 549-563): iterate the routing table in
order and return the first entry whose hostname is strictly equal to the
request host and whose path is a plain string prefix of the request path. -/
def matchRoute (routingTable : List Route) (hostname path : String) : Option Route :=
  match routingTable with
  | [] => none
  | route :: rest =>
    if route.hostname == hostname && strStartsWith path route.path then some route
    else matchRoute rest hostname path

/-- Modelled from the claim's words: case-insensitive exact equality of two
host strings (lowercase both, then compare). Used only to state what the
claim predicts; `matchRoute` itself uses strict `===`. -/
def hostEqCaseInsensitive (a b : String) : Bool :=
  a.data.map Char.toLower == b.data.map Char.toLower

/-! ## JSON values and the ajv routing-table schema
(src/src/libs/routing-table.js lines 11-192)

Candidate routing tables arrive as parsed JSON (`await req.json()` in the
API, a file in the CLI), so schema validation is embedded over a JSON value
type. JSON numbers are modelled as `Int`; the schema only ever checks
`type: 'number'`, never a numeric value, so the claims do not depend on the
float representation. -/

inductive Json where
  | null
  | bool (b : Bool)
  | num (n : Int)
  | str (s : String)
  | arr (elems : List Json)
  | obj (fields : List (String × Json))

/-- First binding of a key in a JSON object. -/
def jLookup (fields : List (String × Json)) (k : String) : Option Json :=
  (fields.find? (fun kv => kv.1 == k)).map (fun kv => kv.2)

def isStr : Json → Bool
  | .str _ => true
  | _ => false

def isNum : Json → Bool
  | .num _ => true
  | _ => false

/-- The two ajv-formats regexes (`hostname`, `uri`) registered by
`addFormats.default(ajv, ['hostname', 'uri'])`. They are kept abstract: the
claims about `setRoutingTable` / `apiRequestHandler` hold for every format
predicate, and witnesses instantiate them concretely. -/
structure Formats where
  hostname : String → Bool
  uri : String → Bool

/-- Schema `{type: 'array', items: {type: 'string'}}` (middleware key lists). -/
def checkStringArray : Json → Bool
  | .arr xs => xs.all isStr
  | _ => false

/-- The `middlewares` subschema: optional `preProcessing` / `postProcessing`
string arrays, `additionalProperties: false`, nothing required. -/
def checkMiddlewares : Json → Bool
  | .obj kvs =>
    kvs.all (fun kv => kv.1 == "preProcessing" || kv.1 == "postProcessing") &&
    (match jLookup kvs "preProcessing" with
     | some v => checkStringArray v
     | none => true) &&
    (match jLookup kvs "postProcessing" with
     | some v => checkStringArray v
     | none => true)
  | _ => false

/-- The `loadBalancingStrategy` subschema: `oneOf` a single branch
`{type: enum ['random'], required: [type], additionalProperties: false}`. -/
def checkLoadBalancingStrategy : Json → Bool
  | .obj kvs =>
    kvs.all (fun kv => kv.1 == "type") &&
    (match jLookup kvs "type" with
     | some (.str t) => t == "random"
     | _ => false)
  | _ => false

def checkAnonymousAuth : Json → Bool
  | .obj kvs =>
    kvs.all (fun kv => kv.1 == "type") &&
    (match jLookup kvs "type" with
     | some (.str t) => t == "anonymous"
     | _ => false)
  | _ => false

def checkBasicAuth : Json → Bool
  | .obj kvs =>
    kvs.all (fun kv => kv.1 == "type" || kv.1 == "username" || kv.1 == "password" || kv.1 == "realm") &&
    (match jLookup kvs "type" with
     | some (.str t) => t == "basic"
     | _ => false) &&
    (match jLookup kvs "username" with
     | some v => isStr v
     | none => false) &&
    (match jLookup kvs "password" with
     | some v => isStr v
     | none => false) &&
    (match jLookup kvs "realm" with
     | some v => isStr v
     | none => true)
  | _ => false

/-- `authenticationStrategy`: `oneOf` [anonymous, basic]. The two branches
are disjoint (their `type` enums differ), so `oneOf` (exactly one) equals
plain disjunction. -/
def checkAuthenticationStrategy (j : Json) : Bool :=
  checkAnonymousAuth j || checkBasicAuth j

def checkNoCacheStrategy : Json → Bool
  | .obj kvs =>
    kvs.all (fun kv => kv.1 == "type") &&
    (match jLookup kvs "type" with
     | some (.str t) => t == "no-cache"
     | _ => false)
  | _ => false

def checkBasicCacheStrategy : Json → Bool
  | .obj kvs =>
    kvs.all (fun kv => kv.1 == "type" || kv.1 == "ttl") &&
    (match jLookup kvs "type" with
     | some (.str t) => t == "basic"
     | _ => false) &&
    (match jLookup kvs "ttl" with
     | some v => isNum v
     | none => false)
  | _ => false

/-- `cacheStrategy`: `oneOf` [no-cache, basic with required ttl];
branches disjoint on `type`. -/
def checkCacheStrategy (j : Json) : Bool :=
  checkNoCacheStrategy j || checkBasicCacheStrategy j

def checkForwardTarget (fmts : Formats) : Json → Bool
  | .obj kvs =>
    kvs.all (fun kv => kv.1 == "type" || kv.1 == "url") &&
    (match jLookup kvs "type" with
     | some (.str t) => t == "forward"
     | _ => false) &&
    (match jLookup kvs "url" with
     | some (.str u) => fmts.uri u
     | _ => false)
  | _ => false

def checkStaticTarget : Json → Bool
  | .obj kvs =>
    kvs.all (fun kv => kv.1 == "type" || kv.1 == "directory" || kv.1 == "index") &&
    (match jLookup kvs "type" with
     | some (.str t) => t == "static"
     | _ => false) &&
    (match jLookup kvs "directory" with
     | some v => isStr v
     | none => false) &&
    (match jLookup kvs "index" with
     | some v => isStr v
     | none => true)
  | _ => false

/-- `targets.items`: `oneOf` [forward, static]; branches disjoint on `type`. -/
def checkTarget (fmts : Formats) (j : Json) : Bool :=
  checkForwardTarget fmts j || checkStaticTarget j

def allowedRouteKeys : List String :=
  ["hostname", "path", "timeout", "middlewares", "loadBalancingStrategy",
   "authenticationStrategy", "cacheStrategy", "targets"]

/-- One route object of the schema: `required: [hostname, path, targets]`,
`additionalProperties: false`, `hostname` a string in `format: 'hostname'`,
`targets` an array with `minItems: 1` of valid targets. -/
def checkRoute (fmts : Formats) : Json → Bool
  | .obj kvs =>
    kvs.all (fun kv => allowedRouteKeys.contains kv.1) &&
    (match jLookup kvs "hostname" with
     | some (.str h) => fmts.hostname h
     | _ => false) &&
    (match jLookup kvs "path" with
     | some v => isStr v
     | none => false) &&
    (match jLookup kvs "timeout" with
     | some v => isNum v
     | none => true) &&
    (match jLookup kvs "middlewares" with
     | some v => checkMiddlewares v
     | none => true) &&
    (match jLookup kvs "loadBalancingStrategy" with
     | some v => checkLoadBalancingStrategy v
     | none => true) &&
    (match jLookup kvs "authenticationStrategy" with
     | some v => checkAuthenticationStrategy v
     | none => true) &&
    (match jLookup kvs "cacheStrategy" with
     | some v => checkCacheStrategy v
     | none => true) &&
    (match jLookup kvs "targets" with
     | some (.arr ts) => !ts.isEmpty && ts.all (checkTarget fmts)
     | _ => false)
  | _ => false

/-- `validateRoutingTableSchema` (the compiled ajv validator): the candidate
is an array all of whose items are valid routes. -/
def validateRoutingTableSchema (fmts : Formats) : Json → Bool
  | .arr routes => routes.all (checkRoute fmts)
  | _ => false

/-! ## The routing-table store (src/src/libs/routing-table.js lines 282-395) -/

/-- The module-scoped `_routingTable` variable; `none` models "never
assigned" (JS `undefined`). -/
structure StoreState where
  routingTable : Option Json

/-- `getRoutingTable` (lines 367-369): `_routingTable || []`. -/
def getRoutingTable (st : StoreState) : Json :=
  st.routingTable.getD (.arr [])

/-- The url of a forward target that `prefetchDns` will try to parse: a
target object whose `type` is `forward` and whose `url` is a truthy string
(`if (!target.url) continue` skips a falsy url; a missing or non-string
url cannot occur in the schema-valid tables `prefetchDns` runs on and is
skipped likewise). -/
def targetForwardUrl? : Json → Option String
  | .obj kvs =>
    match jLookup kvs "type" with
    | some (.str t) =>
      if t = "forward" then
        match jLookup kvs "url" with
        | some (.str u) => if u = "" then none else some u
        | _ => none
      else none
    | _ => none
  | _ => none

/-- The forward-target urls of one route, in target order. -/
def routeForwardUrls : Json → List String
  | .obj kvs =>
    match jLookup kvs "targets" with
    | some (.arr ts) => ts.filterMap targetForwardUrl?
    | _ => []
  | _ => []

/-- All forward-target urls of a stored table, in table order. -/
def forwardUrls : Json → List String
  | .arr routes => (routes.map routeForwardUrls).flatten
  | _ => []

/-- Whether `prefetchDns` (routing-table.js lines 377-395) throws on the
stored table: its collection loop computes `new URL(target.url).host` for
every forward target with a truthy url, and the WHATWG URL constructor
throws on some strings that pass the ajv `uri` format (for example
`http://`, whose authority is empty, or a port above 65535); `urlHost`
models `u => new URL(u).host`, `none` standing for the thrown TypeError.
The later `dns.prefetch` calls are fire-and-forget and cannot throw. -/
def prefetchDnsThrows (urlHost : String → Option String) (table : Json) : Bool :=
  (forwardUrls table).any (fun u => (urlHost u).isNone)

/-- `setRoutingTable` (lines 291-311): validate the candidate; on a schema
failure throw `RoutingTableError` (rewrapped as "Failed to set the routing
table" by the outer catch) without touching `_routingTable`. On a valid
candidate, assign `_routingTable` FIRST, then run
`propagateRoutingTableToWorkers` (worker IPC sends, no data-dependent
failure, modelled as a non-failing side effect) and then `prefetchDns`,
which throws when some forward url is WHATWG-unparseable; that exception is
caught and rethrown by the outer catch, with the store already holding the
new snapshot. `urlHost` is the abstract `u => new URL(u).host` (kept
abstract like `Formats`; concrete theorems instantiate it). The result
pairs the resulting store with the thrown error, if any. -/
def setRoutingTable (fmts : Formats) (urlHost : String → Option String)
    (candidate : Json) (st : StoreState) : StoreState × Option String :=
  if validateRoutingTableSchema fmts candidate then
    if prefetchDnsThrows urlHost candidate then
      (⟨some candidate⟩, some "Failed to set the routing table")
    else
      (⟨some candidate⟩, none)
  else
    (st, some "Failed to set the routing table")

/-! ## Management API (src/src/libs/api.js lines 28-79) -/

/-- Bodies of management-API responses. The anonymous endpoints backed by
out-of-scope generators (OpenAPI document, HTML explorer, aggregated
metrics) are opaque tags; everything the claims touch is concrete. -/
inductive ApiBody where
  | openapi
  | explorer
  | metrics
  | text (s : String)
  | json (j : Json)

structure ApiResponse where
  status : Nat
  body : ApiBody

/-- `apiRequestHandler` (api.js lines 28-79). `key` is `apiOptions.key`
(optional in `ApiOptions`). The handler has no try/catch: when
`setRoutingTable` throws on an invalid POST body, the exception escapes the
handler (`.error`), so no response is produced by it (Bun's `serve` default
error handling then surfaces an internal error, not a 400). JS falsiness:
an empty second token is rejected as a missing API key. -/
def apiRequestHandler (fmts : Formats) (urlHost : String → Option String)
    (key : Option String) (method pathname : String)
    (authorizationHeader : Option String) (body : Json) (st : StoreState) :
    Except String (ApiResponse × StoreState) :=
  if pathname = "" ∨ pathname = "/" then
    .ok (⟨200, .openapi⟩, st)
  else if strStartsWith pathname "/explorer" then
    .ok (⟨200, .explorer⟩, st)
  else if pathname = "/health" then
    .ok (⟨200, .json (.obj [("status", .str "ok")])⟩, st)
  else if pathname = "/metrics" then
    .ok (⟨200, .metrics⟩, st)
  else
    match authorizationHeader with
    | none => .ok (⟨401, .text "Not authorized. Missing \"Authorization\" header"⟩, st)
    | some h =>
      match (splitOnChar ' ' h)[1]? with
      | none => .ok (⟨401, .text "Not authorized. Missing API key"⟩, st)
      | some requestApiKey =>
        if requestApiKey = "" then
          .ok (⟨401, .text "Not authorized. Missing API key"⟩, st)
        else if some requestApiKey ≠ key then
          .ok (⟨401, .text "Not authorized. API key invalid"⟩, st)
        else if method = "GET" ∧ pathname = "/routes" then
          .ok (⟨200, .json (getRoutingTable st)⟩, st)
        else if method = "POST" ∧ pathname = "/routes" then
          match setRoutingTable fmts urlHost body st with
          | (st2, none) => .ok (⟨200, .text "OK"⟩, st2)
          | (_, some e) => .error e
        else
          .ok (⟨404, .text "Not found"⟩, st)

/-- Modelled from the claim's words (C10): the whitespace-separated tokens
of a header value (split on spaces and tabs, empties dropped). -/
def whitespaceTokens (s : String) : List String :=
  ((splitListOn (fun c => c = ' ' || c = '\t') s.data).filter (fun l => l ≠ [])).map
    (fun l => (⟨l⟩ : String))

/-- A trivial instantiation of the abstract ajv format predicates, used by
concrete witnesses (the claims hold for every instantiation). -/
def fmtsAll : Formats := ⟨fun _ => true, fun _ => true⟩

/-- The valid routing table of the spec's scenario 3. -/
def sampleValidTable : Json :=
  .arr [.obj [("hostname", .str "localhost"), ("path", .str ""),
              ("targets", .arr [.obj [("type", .str "static"), ("directory", .str "./fixtures")]])]]

/-- A candidate that fails schema validation (route with an empty `targets`
array, violating `minItems: 1`; `path` missing as well). -/
def sampleInvalidTable : Json :=
  .arr [.obj [("hostname", .str "localhost"), ("targets", .arr [])]]

/-- A schema-valid candidate whose forward url makes `new URL` throw: the
ajv `uri` format (RFC 3986) accepts `http://` - scheme plus empty
authority - but the WHATWG URL constructor rejects an empty host for a
special scheme, so `prefetchDns` throws on this table. -/
def sampleBadUrlTable : Json :=
  .arr [.obj [("hostname", .str "localhost"), ("path", .str ""),
              ("targets", .arr [.obj [("type", .str "forward"), ("url", .str "http://")]])]]

/-- A concrete instantiation of the abstract `u => new URL(u).host`,
agreeing with the WHATWG URL constructor on every url string appearing in
this file's concrete tables: `new URL('http://')` throws (empty host in a
special scheme). -/
def urlHostSample : String → Option String :=
  fun u => if u = "http://" then none else some "upstream.example"

/-! ## Worker responses and forgiving base64 (part_006) -/

/-- The body of a response produced by the worker's request handler. Bodies
the handler builds itself are `text`; a successfully proxied upstream
response records the upstream URL that was fetched; a served static file
records the filesystem path handed to `Bun.file`. -/
inductive RespBody where
  | text (s : String)
  | upstream (url : String)
  | file (path : String)
deriving DecidableEq, Repr

/-- A worker response: status, body, and the `WWW-Authenticate` header when
basic authentication sets one (other header mutations - CORS, content
encoding, debug headers - carry no claim content and are not modelled). -/
structure ProxyResponse where
  status : Nat
  body : RespBody
  wwwAuthenticate : Option String
deriving DecidableEq, Repr

/-- Value of one base64 alphabet character, `none` outside the alphabet. -/
def base64Val (c : Char) : Option Nat :=
  if 'A' ≤ c ∧ c ≤ 'Z' then some (c.toNat - 65)
  else if 'a' ≤ c ∧ c ≤ 'z' then some (c.toNat - 97 + 26)
  else if '0' ≤ c ∧ c ≤ '9' then some (c.toNat - 48 + 52)
  else if c = '+' then some 62
  else if c = '/' then some 63
  else none

/-- ASCII whitespace, removed by forgiving-base64 decode. -/
def isAsciiWs (c : Char) : Bool :=
  c = ' ' ∨ c = '\t' ∨ c = '\n' ∨ c = '\r' ∨ c = '\x0c'

/-- Strip up to two trailing `=` when the input length is a multiple of 4
(the forgiving-base64 padding rule). -/
def stripBase64Padding (l : List Char) : List Char :=
  if l.length % 4 = 0 then
    let l1 := if l.getLast? = some '=' then l.dropLast else l
    if l1.getLast? = some '=' then l1.dropLast else l1
  else l

/-- Reassemble decoded bytes from base64 sextets: groups of four sextets
yield three bytes; a trailing pair yields one byte, a trailing triple two.
A singleton remainder is impossible (length mod 4 = 1 is rejected first). -/
def decodeSextets : List Nat → List Nat
  | a :: b :: c :: d :: rest =>
    (a * 4 + b / 16) :: ((b % 16) * 16 + c / 4) :: ((c % 4) * 64 + d) :: decodeSextets rest
  | [a, b] => [a * 4 + b / 16]
  | [a, b, c] => [a * 4 + b / 16, (b % 16) * 16 + c / 4]
  | _ => []

/-- The WHATWG `atob` (forgiving-base64 decode) used by
`basicAuthenticationMiddleware`: remove ASCII whitespace, strip padding,
fail on a length of 1 mod 4 or any character outside the alphabet,
otherwise decode to a latin1 string. `none` models the thrown
`InvalidCharacterError`. -/
def atob (s : String) : Option String :=
  let data := s.data.filter (fun c => !isAsciiWs c)
  let data := stripBase64Padding data
  if data.length % 4 = 1 then none
  else
    match data.mapM base64Val with
    | none => none
    | some sextets => some ⟨(decodeSextets sextets).map Char.ofNat⟩

/-- The 401 response built by `basicAuthenticationMiddleware`
(part_006 lines 586-591 and 598-603): body `Not authorized`, header
`WWW-Authenticate: Basic realm="<realm>"`. -/
def authFailedResponse (realm : String) : ProxyResponse :=
  ⟨401, .text "Not authorized", some ("Basic realm=\"" ++ realm ++ "\"")⟩

/-- `basicAuthenticationMiddleware` (part_006 lines 576-606). The realm is
always the request hostname (the source's TODO: the configured realm is
never consulted). A missing header yields the 401 immediately. Otherwise
the second space-separated piece of the header is decoded with `atob`
(JavaScript coerces an absent piece to the string "undefined"); a decode
failure is a thrown exception (`.error`), uncaught in the source. The
decoded string's first two colon-fields are compared strictly against the
configured username and password (an absent password field, JS `undefined`,
never equals the configured string); a mismatch yields the 401, a match
yields no response (`.ok none`) and dispatch continues. -/
def basicAuthenticationMiddleware (hostname validUser validPassword : String)
    (authorizationHeader : Option String) : Except Unit (Option ProxyResponse) :=
  let realm := hostname
  match authorizationHeader with
  | none => .ok (some (authFailedResponse realm))
  | some h =>
    let encodedAuthorizationString := ((splitOnChar ' ' h)[1]?).getD "undefined"
    match atob encodedAuthorizationString with
    | none => .error ()
    | some decoded =>
      let requestUser := ((splitOnChar ':' decoded)[0]?).getD ""
      let requestPassword := (splitOnChar ':' decoded)[1]?
      if requestUser ≠ validUser ∨ requestPassword ≠ some validPassword then
        .ok (some (authFailedResponse realm))
      else
        .ok none

/-! ## Pre-processing middleware pipeline (part_006 lines 327-381) -/

/-- `MiddlewareAction` typedef. -/
inductive MiddlewareAction where
  | next
  | cancel
deriving DecidableEq, Repr

/-- Request headers as the JS header map the middlewares see. -/
abbrev Headers := List (String × String)

/-- The part of the updated `PreProcessingMiddlewareState` a handler returns
that the pipeline consumes: the `action` (possibly absent/unknown), the
optional `cancellationReason`, and the handler's view of the headers
(applied to the request on `next`). -/
structure PreMwOutcome where
  action : Option MiddlewareAction
  cancellationReason : Option String
  headers : Headers

/-- A middleware registered in the worker: a key and (possibly absent)
handler function. The handler is modelled as a function of the current
headers (the transaction and body it also receives carry no claim
content). -/
structure RegisteredMiddleware where
  key : String
  handler : Option (Headers → PreMwOutcome)

/-- The observable result of the pre-processing loop. -/
structure PreResult where
  cancelled : Bool
  cancellationReason : Option String
  response : Option ProxyResponse
  headers : Headers

/-- The pre-processing loop (part_006 lines 330-376): for each key listed on
the route, an unregistered key or a registered middleware without a handler
is skipped with a warning; a handler returning `cancel` marks the
transaction cancelled with the handler-supplied reason or the default
`Cancelled by <key>` (JS `||`, so an empty reason also falls to the
default), sets the response to `400 Request cancelled`, and breaks the
loop; `next` replaces the request headers with the state's headers; an
unknown action is a warning and the loop continues. -/
def runPreMiddlewares (registered : List RegisteredMiddleware) :
    List String → Headers → PreResult
  | [], headers => ⟨false, none, none, headers⟩
  | middlewareKey :: rest, headers =>
    match registered.find? (fun m => m.key == middlewareKey) with
    | none => runPreMiddlewares registered rest headers
    | some middleware =>
      match middleware.handler with
      | none => runPreMiddlewares registered rest headers
      | some middlewareHandler =>
        let updatedState := middlewareHandler headers
        match updatedState.action with
        | some .cancel =>
          ⟨true, some (jsOr updatedState.cancellationReason ("Cancelled by " ++ middlewareKey)),
           some ⟨400, .text "Request cancelled", none⟩, headers⟩
        | some .next => runPreMiddlewares registered rest updatedState.headers
        | none => runPreMiddlewares registered rest headers

/-! ## Target dispatch (part_006 lines 410-490) -/

/-- The outcome of the upstream `fetch` of a forward dispatch, as an oracle:
a response with some status, an `AbortError` (the armed deadline fired and
the controller aborted the call), or any other failure. -/
inductive FetchOutcome where
  | success (status : Nat)
  | abortError
  | otherError
deriving DecidableEq, Repr

/-- The deadline armed for the upstream call (part_006 line 434):
`route.timeout || Number(env.MAEGASHIRA_TIMEOUT) || 5000`; in JS `0` (and an
unset or non-numeric env value, modelled as `none`) is falsy and falls
through. -/
def effectiveTimeout (routeTimeout envTimeout : Option Int) : Int :=
  let envDefault :=
    match envTimeout with
    | some e => if e ≠ 0 then e else 5000
    | none => 5000
  match routeTimeout with
  | some t => if t ≠ 0 then t else envDefault
  | none => envDefault

/-- The upstream URL of a forward dispatch (part_006 lines 415-417):
`target.url + url.pathname.replace(route.path, '') + url.search`. -/
def buildTargetUrl (targetUrl routePath pathname search : String) : String :=
  targetUrl ++ replaceFirst routePath pathname ++ search

/-- What a forward dispatch produces: the response, the transaction
cancellation fields it sets, and the deadline that was armed. -/
structure ForwardResult where
  response : ProxyResponse
  cancelled : Bool
  cancellationReason : Option String
  timeoutArmed : Int
deriving DecidableEq, Repr

/-- Forward dispatch (part_006 lines 414-472): build the upstream URL, arm
the deadline, fetch. A successful fetch becomes the response (CORS /
content-encoding header rewrites not modelled). An `AbortError` becomes
`504 Request timed out` with `cancellation_reason = timeout`; any other
fetch failure becomes `500 Failed to fetch the target URL` with
`cancellation_reason = fetch_failed`. -/
def forwardDispatch (targetUrl routePath pathname search : String)
    (routeTimeout envTimeout : Option Int) (outcome : FetchOutcome) : ForwardResult :=
  let upstreamUrl := buildTargetUrl targetUrl routePath pathname search
  let timeoutArmed := effectiveTimeout routeTimeout envTimeout
  match outcome with
  | .success status => ⟨⟨status, .upstream upstreamUrl, none⟩, false, none, timeoutArmed⟩
  | .abortError => ⟨⟨504, .text "Request timed out", none⟩, true, some "timeout", timeoutArmed⟩
  | .otherError => ⟨⟨500, .text "Failed to fetch the target URL", none⟩, true, some "fetch_failed", timeoutArmed⟩

/-- The filesystem path a static dispatch hands to `Bun.file`
(part_006 lines 477-482): `target.directory + url.pathname + indexFile`,
where `indexFile` is `target.index || 'index.html'` when the pathname ends
with `/` and empty otherwise. -/
def staticResolvedPath (directory : String) (index : Option String) (pathname : String) : String :=
  let indexFile := if pathname = "/" ∨ strEndsWith pathname "/" then jsOr index "index.html" else ""
  directory ++ pathname ++ indexFile

/-- Static dispatch (part_006 lines 476-489): serve the resolved file if it
exists (`fileExists` is the filesystem oracle), else `404 Not found`. No
path-traversal check appears in the source. -/
def staticDispatch (directory : String) (index : Option String) (pathname : String)
    (fileExists : String → Bool) : ProxyResponse :=
  let path := staticResolvedPath directory index pathname
  if fileExists path then ⟨200, .file path, none⟩
  else ⟨404, .text "Not found", none⟩

/-! ## The per-request state machine (part_006 lines 260-538) -/

/-- The cancellation / target fields of the transaction record that the
routing and dispatch phases set (timestamps are finalised separately, see
`finalizeTransaction`). -/
structure TransactionFlags where
  cancelled : Bool
  cancellationReason : Option String
  targetType : Option String
deriving DecidableEq, Repr

/-- The per-request oracles: the worker's registered middlewares, the
random load-balancing pick, the parsed `MAEGASHIRA_TIMEOUT` environment
value, the upstream fetch outcome, and the filesystem. -/
structure HandlerCtx where
  registered : List RegisteredMiddleware
  pick : Nat
  envTimeout : Option Int
  fetchOutcome : FetchOutcome
  fileExists : String → Bool

/-- The authentication gate (part_006 lines 383-408): no strategy or
`anonymous` always passes; `basic` delegates to
`basicAuthenticationMiddleware`; `.ok (some r)` is a failure response,
`.ok none` lets dispatch continue. -/
def authGate (route : Route) (hostname : String) (authorizationHeader : Option String) :
    Except Unit (Option ProxyResponse) :=
  match route.authenticationStrategy with
  | none => .ok none
  | some .anonymous => .ok none
  | some (.basic username password _realm) =>
    basicAuthenticationMiddleware hostname username password authorizationHeader

/-- The matched-route portion of `requestHandler` (part_006 lines 302-490),
sequenced exactly as the source is: pick a target
(`targets[floor(random * length)]`, the same uniform pick for every load
balancing branch, modelled as `pick % length`; an empty `targets` array
leaves the target `undefined`), run the pre-processing middlewares, run the
authentication gate, and - whenever `authenticated` is true, regardless of
any middleware cancellation - dispatch the target, overwriting the current
`response`. Accessing `target.type` on an undefined target, like an
exception escaping the authentication gate, is a thrown error (`.error`),
caught by `requestHandler`'s catch and surfaced via Bun's error handler as
a 500. -/
def handleMatchedRoute (ctx : HandlerCtx) (route : Route)
    (hostname pathname search : String) (authorizationHeader : Option String)
    (headers0 : Headers) : Except Unit (ProxyResponse × TransactionFlags) :=
  let targetPick :=
    match route.loadBalancingStrategy with
    | some .random => ctx.pick % route.targets.length
    | none => ctx.pick % route.targets.length
  let target? : Option Target := route.targets[targetPick]?
  let pre :=
    if route.middlewares.preProcessing ≠ [] then
      runPreMiddlewares ctx.registered route.middlewares.preProcessing headers0
    else ⟨false, none, none, headers0⟩
  -- In the source, `response` here holds `pre.response` (the middleware 400)
  -- or the initial `500 Unknown error`; every later arm of the source
  -- overwrites it (auth failure, forward dispatch, static dispatch), and the
  -- schema's two target variants cover all dispatch arms, so that value is
  -- never returned for a matched route: a middleware cancellation does not
  -- stop dispatch.
  match authGate route hostname authorizationHeader with
  | .error e => .error e
  | .ok (some authResponse) =>
    .ok (authResponse, ⟨pre.cancelled, pre.cancellationReason, none⟩)
  | .ok none =>
    match target? with
    | none => .error ()
    | some (.forward url) =>
      let fr := forwardDispatch url route.path pathname search route.timeout ctx.envTimeout
        ctx.fetchOutcome
      .ok (fr.response,
        ⟨pre.cancelled || fr.cancelled,
         if fr.cancelled then fr.cancellationReason else pre.cancellationReason,
         some "forward"⟩)
    | some (.static directory index) =>
      .ok (staticDispatch directory index pathname ctx.fileExists,
        ⟨pre.cancelled, pre.cancellationReason, some "static"⟩)

/-- `requestHandler`'s route resolution (part_006 lines 293-301 plus the
matched branch): a miss is `404 Route not found` with the transaction
cancelled for reason `route_match`; a hit continues with
`handleMatchedRoute`. -/
def requestHandler (ctx : HandlerCtx) (routingTable : List Route)
    (hostname pathname search : String) (authorizationHeader : Option String)
    (headers0 : Headers) : Except Unit (ProxyResponse × TransactionFlags) :=
  match matchRoute routingTable hostname pathname with
  | none => .ok (⟨404, .text "Route not found", none⟩, ⟨true, some "route_match", none⟩)
  | some route => handleMatchedRoute ctx route hostname pathname search authorizationHeader headers0

/-! ## Transaction finalisation (part_006 lines 502-509) -/

/-- The duration fields stamped at FINALIZE. -/
structure FinalizeResult where
  transactionDuration : Int
  transactionTotalOverhead : Option Int
deriving DecidableEq, Repr

/-- Transaction finalisation (part_006 lines 502-509), timestamps as epoch
milliseconds: `transaction_duration = end - start` with no clamping, and
`transaction_total_overhead = duration - target_request_duration` computed
only when `target_request_duration` is set and nonzero (JS truthiness),
also unclamped. (The floating-point overhead percentage of line 508 is not
modelled.) -/
def finalizeTransaction (startMs endMs : Int) (targetRequestDuration : Option Int) :
    FinalizeResult :=
  let duration := endMs - startMs
  { transactionDuration := duration
    transactionTotalOverhead :=
      match targetRequestDuration with
      | some d => if d ≠ 0 then some (duration - d) else none
      | none => none }

/-! ## WHATWG URL pathname normalisation

The static branch of the request handler consumes `url.pathname` from
`new URL(request.url)`. For an http URL the WHATWG path parser splits the
path at `/` (and, for special schemes, `\`), removes single-dot segments
(`.` and the percent-encoding `%2e`, case-insensitive) and double-dot
segments (`..`, `.%2e`, `%2e.`, `%2e%2e`, case-insensitive, each popping
the previous segment), and can never climb above the path root. This is the
only mechanism between a raw request path and the filesystem path built by
the static dispatch. -/

/-- Lowercase a segment (for the case-insensitive `%2e` forms). -/
def lowerSeg (s : Seg) : Seg := s.map Char.toLower

/-- A WHATWG single-dot path segment. -/
def isSingleDotSeg (s : Seg) : Bool :=
  s = ['.'] || lowerSeg s = ['%', '2', 'e']

/-- A WHATWG double-dot path segment. -/
def isDoubleDotSeg (s : Seg) : Bool :=
  s = ['.', '.'] || lowerSeg s = ['.', '%', '2', 'e'] ||
  lowerSeg s = ['%', '2', 'e', '.'] || lowerSeg s = ['%', '2', 'e', '%', '2', 'e']

/-- Separators of the WHATWG path state for special (http) URLs. -/
def urlSep (c : Char) : Bool := c = '/' || c = '\\'

/-- The WHATWG path state over the raw segments; `acc` holds the output
segments in reverse. A double-dot segment shortens the path; at the end of
input a single- or double-dot segment additionally appends an empty segment
(so `/a/..` serialises as `/` and `/a/.` as `/a/`). -/
def urlSegsAux (acc : List Seg) : List Seg → List Seg
  | [] => acc.reverse
  | [seg] =>
    if isDoubleDotSeg seg then (acc.drop 1).reverse ++ [[]]
    else if isSingleDotSeg seg then acc.reverse ++ [[]]
    else acc.reverse ++ [seg]
  | seg :: seg2 :: rest2 =>
    if isDoubleDotSeg seg then urlSegsAux (acc.drop 1) (seg2 :: rest2)
    else if isSingleDotSeg seg then urlSegsAux acc (seg2 :: rest2)
    else urlSegsAux (seg :: acc) (seg2 :: rest2)

def dropLeadingSlash : List Char → List Char
  | '/' :: r => r
  | r => r

/-- The normalised segments of an http URL path. -/
def urlNormSegs (raw : String) : List Seg :=
  urlSegsAux [] (splitListOn urlSep (dropLeadingSlash raw.data))

/-- Join segments with `/` (the URL path serialiser). -/
def joinSegs : List Seg → List Char
  | [] => []
  | [s] => s
  | s :: s1 :: rest1 => s ++ '/' :: joinSegs (s1 :: rest1)

/-- `url.pathname` as the request handler sees it, for a raw request path:
a leading slash followed by the serialised normalised segments. -/
def urlNormalizePathname (raw : String) : String :=
  ⟨'/' :: joinSegs (urlNormSegs raw)⟩

/-! ## Filesystem path normalisation and descendance

Lexical normalisation of a POSIX path, used to state what "descendant of
the target directory after normalization" means in the claim. -/

/-- One step of lexical filesystem normalisation over `/`-separated
segments, accumulator reversed: empty and `.` segments vanish, `..` pops
the previous segment (and is kept when there is nothing left to pop, as at
the start of a relative path). -/
def fsNormStep (acc : List Seg) (seg : Seg) : List Seg :=
  if seg = [] ∨ seg = ['.'] then acc
  else if seg = ['.', '.'] then
    match acc with
    | [] => [['.', '.']]
    | a :: rest => if a = ['.', '.'] then ['.', '.'] :: a :: rest else rest
  else seg :: acc

/-- The `/`-separated segments of a filesystem path. -/
def fsSegs (s : String) : List Seg :=
  splitListOn (fun c => c = '/') s.data

/-- Lexically normalised segments of a filesystem path. -/
def fsNormSegs (l : List Seg) : List Seg :=
  (l.foldl fsNormStep []).reverse

/-- The claim's safety predicate: after normalisation, `p` lies at or below
`dir`. -/
def isDescendant (dir p : String) : Bool :=
  (fsNormSegs (fsSegs dir)).isPrefixOf (fsNormSegs (fsSegs p))

/-- Filesystem oracle for counterexamples: every path exists. -/
def allFilesExist : String → Bool := fun _ => true

/-! # Theorems -/

/-- C2 (counterexample). The claim is false on two points. First, with a
route of path `/api`, the request path `/apix` does match (the source uses
plain `String.prototype.startsWith`, which has no segment boundary), while
the claim says it must not. Second, hostname comparison is the strict
`===`, not case-insensitive: a route whose configured hostname is
`EXAMPLE.com` (accepted by the ajv `hostname` format, which is
case-insensitive) never matches the request host `example.com`, although
the two are case-insensitively equal as the claim requires. -/
theorem C2_counterexample_apix_matches_and_host_case_sensitive :
    matchRoute
      [{ hostname := "localhost", path := "/api", timeout := none,
         middlewares := ⟨[], []⟩, loadBalancingStrategy := none,
         authenticationStrategy := none, cacheStrategy := none,
         targets := [.forward "http://x"] }]
      "localhost" "/apix"
    = some { hostname := "localhost", path := "/api", timeout := none,
             middlewares := ⟨[], []⟩, loadBalancingStrategy := none,
             authenticationStrategy := none, cacheStrategy := none,
             targets := [.forward "http://x"] }
    ∧ matchRoute
      [{ hostname := "EXAMPLE.com", path := "", timeout := none,
         middlewares := ⟨[], []⟩, loadBalancingStrategy := none,
         authenticationStrategy := none, cacheStrategy := none,
         targets := [.forward "http://x"] }]
      "example.com" "/"
    = none
    ∧ hostEqCaseInsensitive "EXAMPLE.com" "example.com" = true := by
  refine ⟨rfl, rfl, by decide⟩

/-- C2 (amended): `matchRoute` returns the first route in table order whose
hostname equals the request host under case-sensitive string equality and
whose path is a plain string prefix of the request path (`List.find?` of
the loop predicate), and none when no route qualifies; an empty route path
matches every request path, and for a route path `/api` the request paths
`/api`, `/api/`, `/api/v1` and also `/apix` all match. -/
theorem C2_matchRoute_first_case_sensitive_plain_prefix
    (T : List Route) (hostname path : String) :
    matchRoute T hostname path = T.find? (routeMatchesB hostname path)
    ∧ strStartsWith path "" = true
    ∧ (strStartsWith "/api" "/api" = true ∧ strStartsWith "/api/" "/api" = true
       ∧ strStartsWith "/api/v1" "/api" = true ∧ strStartsWith "/apix" "/api" = true) := by
  refine ⟨?_, ?_, by decide⟩
  · induction T with
    | nil => rfl
    | cons r rest ih =>
      rw [matchRoute, List.find?]
      cases h : routeMatchesB hostname path r with
      | true =>
        unfold routeMatchesB at h
        simp [h]
      | false =>
        unfold routeMatchesB at h
        simp [h, ih]
  · show List.isPrefixOf ("" : String).data path.data = true
    simp [List.isPrefixOf]

/-- C3 (counterexample): a schema-valid table is not always set
successfully. The table whose single forward target has url `http://`
passes schema validation (the ajv `uri` format accepts it), yet
`setRoutingTable` throws - `prefetchDns` runs `new URL('http://')` inside
the try, after `_routingTable` has already been assigned - so the call
fails while `getRoutingTable` already returns the new table. -/
theorem C3_counterexample_valid_table_with_unparseable_url_throws :
    validateRoutingTableSchema fmtsAll sampleBadUrlTable = true
    ∧ (setRoutingTable fmtsAll urlHostSample sampleBadUrlTable ⟨none⟩).2.isSome = true
    ∧ getRoutingTable (setRoutingTable fmtsAll urlHostSample sampleBadUrlTable ⟨none⟩).1
      = sampleBadUrlTable := by
  refine ⟨by rfl, by rfl, by rfl⟩

/-- C3 (amended): a candidate failing schema validation makes
`setRoutingTable` throw with the stored snapshot unchanged; a candidate
passing validation whose forward urls all parse under the WHATWG URL
constructor is stored, the call succeeds, and `getRoutingTable` returns it
structurally equal; a candidate passing validation with some
WHATWG-unparseable forward url is first stored and then the DNS prefetch
throws, so the call fails although `getRoutingTable` returns the new
table. -/
theorem C3_setRoutingTable_validation_and_prefetch (fmts : Formats)
    (urlHost : String → Option String) (candidate : Json) (st : StoreState) :
    (validateRoutingTableSchema fmts candidate = false →
      (setRoutingTable fmts urlHost candidate st).2.isSome = true
      ∧ getRoutingTable (setRoutingTable fmts urlHost candidate st).1 = getRoutingTable st)
    ∧ (validateRoutingTableSchema fmts candidate = true →
       prefetchDnsThrows urlHost candidate = false →
      (setRoutingTable fmts urlHost candidate st).2 = none
      ∧ getRoutingTable (setRoutingTable fmts urlHost candidate st).1 = candidate)
    ∧ (validateRoutingTableSchema fmts candidate = true →
       prefetchDnsThrows urlHost candidate = true →
      (setRoutingTable fmts urlHost candidate st).2.isSome = true
      ∧ getRoutingTable (setRoutingTable fmts urlHost candidate st).1 = candidate) := by
  refine ⟨?_, ?_, ?_⟩
  · intro h
    simp [setRoutingTable, h]
  · intro h hp
    simp [setRoutingTable, h, hp, getRoutingTable]
  · intro h hp
    simp [setRoutingTable, h, hp, getRoutingTable]

/-- C3 (witness): an empty-targets route is rejected and the store keeps
its previous snapshot; the spec's scenario-3 table (static target, no
forward urls) is stored and returned; the `http://` table is stored and
the call still fails. -/
theorem C3_setRoutingTable_validation_and_prefetch_witness :
    ((setRoutingTable fmtsAll urlHostSample sampleInvalidTable ⟨some sampleValidTable⟩).2.isSome
        = true
      ∧ getRoutingTable
          (setRoutingTable fmtsAll urlHostSample sampleInvalidTable ⟨some sampleValidTable⟩).1
        = getRoutingTable ⟨some sampleValidTable⟩)
    ∧ ((setRoutingTable fmtsAll urlHostSample sampleValidTable ⟨none⟩).2 = none
      ∧ getRoutingTable (setRoutingTable fmtsAll urlHostSample sampleValidTable ⟨none⟩).1
        = sampleValidTable)
    ∧ ((setRoutingTable fmtsAll urlHostSample sampleBadUrlTable ⟨none⟩).2.isSome = true
      ∧ getRoutingTable (setRoutingTable fmtsAll urlHostSample sampleBadUrlTable ⟨none⟩).1
        = sampleBadUrlTable) :=
  ⟨(C3_setRoutingTable_validation_and_prefetch fmtsAll urlHostSample sampleInvalidTable
      ⟨some sampleValidTable⟩).1 (by rfl),
   (C3_setRoutingTable_validation_and_prefetch fmtsAll urlHostSample sampleValidTable
      ⟨none⟩).2.1 (by rfl) (by rfl),
   (C3_setRoutingTable_validation_and_prefetch fmtsAll urlHostSample sampleBadUrlTable
      ⟨none⟩).2.2 (by rfl) (by rfl)⟩

/-- C6: a forward dispatch arms the deadline `route.timeout` when set and
nonzero, else the parsed `MAEGASHIRA_TIMEOUT` environment value when set
and nonzero, else 5000 ms; an aborted upstream call (the deadline fired)
yields `504 Request timed out` with `cancellation_reason = timeout`; any
other fetch failure yields `500 Failed to fetch the target URL` with
`cancellation_reason = fetch_failed`. -/
theorem C6_forward_deadline_timeout_and_fetch_failure (u rp pn s : String)
    (rt env : Option Int) (o : FetchOutcome) (t e : Int) (ht : t ≠ 0) (he : e ≠ 0) :
    forwardDispatch u rp pn s rt env .abortError
      = ⟨⟨504, .text "Request timed out", none⟩, true, some "timeout",
         effectiveTimeout rt env⟩
    ∧ forwardDispatch u rp pn s rt env .otherError
      = ⟨⟨500, .text "Failed to fetch the target URL", none⟩, true, some "fetch_failed",
         effectiveTimeout rt env⟩
    ∧ (forwardDispatch u rp pn s rt env o).timeoutArmed = effectiveTimeout rt env
    ∧ effectiveTimeout (some t) env = t
    ∧ effectiveTimeout none (some e) = e
    ∧ effectiveTimeout none none = 5000 := by
  refine ⟨rfl, rfl, ?_, ?_, ?_, rfl⟩
  · cases o <;> rfl
  · simp [effectiveTimeout, ht]
  · simp [effectiveTimeout, he]

/-- C6 (witness). -/
theorem C6_forward_deadline_timeout_and_fetch_failure_witness :
    forwardDispatch "http://u" "" "/" "" (some 100) none .abortError
      = ⟨⟨504, .text "Request timed out", none⟩, true, some "timeout",
         effectiveTimeout (some 100) none⟩
    ∧ forwardDispatch "http://u" "" "/" "" (some 100) none .otherError
      = ⟨⟨500, .text "Failed to fetch the target URL", none⟩, true, some "fetch_failed",
         effectiveTimeout (some 100) none⟩
    ∧ (forwardDispatch "http://u" "" "/" "" (some 100) none (.success 200)).timeoutArmed
      = effectiveTimeout (some 100) none
    ∧ effectiveTimeout (some 100) none = 100
    ∧ effectiveTimeout none (some 7) = 7
    ∧ effectiveTimeout none none = 5000 :=
  C6_forward_deadline_timeout_and_fetch_failure "http://u" "" "/" "" (some 100) none
    (.success 200) 100 7 (by decide) (by decide)

/-- JavaScript `replace(pat, '')` on a string that starts with `pat`
removes exactly that leading prefix (the leftmost occurrence is at index
0). -/
theorem replaceFirstL_of_isPrefixOf (pat l : List Char) (h : pat.isPrefixOf l = true) :
    replaceFirstL pat l = l.drop pat.length := by
  cases l with
  | nil => simp [replaceFirstL, h]
  | cons c cs => simp [replaceFirstL, h]

/-- C7: for a request path carrying the matched route path as a prefix, the
upstream URL is the target URL, followed by the request path with the
route-path prefix removed, followed by the query string; in particular
`http://u` + `/p` + `/p/rest?q=1` yields `http://u/rest?q=1`. -/
theorem C7_forward_url_strips_matched_route_path (u p pn s : String)
    (h : strStartsWith pn p = true) :
    buildTargetUrl u p pn s = u ++ strDrop pn p.length ++ s
    ∧ buildTargetUrl "http://u" "/p" "/p/rest" "?q=1" = "http://u/rest?q=1" := by
  refine ⟨?_, by decide⟩
  unfold strStartsWith at h
  show u ++ replaceFirst p pn ++ s = _
  unfold replaceFirst strDrop
  rw [replaceFirstL_of_isPrefixOf p.data pn.data h]
  rfl

/-- C7 (witness). -/
theorem C7_forward_url_strips_matched_route_path_witness :
    buildTargetUrl "http://u" "/p" "/p/rest" "?q=1"
      = "http://u" ++ strDrop "/p/rest" ("/p" : String).length ++ "?q=1"
    ∧ buildTargetUrl "http://u" "/p" "/p/rest" "?q=1" = "http://u/rest?q=1" :=
  C7_forward_url_strips_matched_route_path "http://u" "/p" "/p/rest" "?q=1" (by decide)

/-- C9 (counterexample): the finalisation code clamps nothing. With a clock
skew where the end timestamp precedes the start, `transaction_duration` is
negative; `transaction_total_overhead` is likewise negative when the
upstream took longer than the whole transaction measured. -/
theorem C9_counterexample_negative_duration_and_overhead :
    (finalizeTransaction 1000 900 (some 50)).transactionDuration = -100
    ∧ (finalizeTransaction 1000 900 (some 50)).transactionDuration < 0
    ∧ (finalizeTransaction 0 100 (some 200)).transactionTotalOverhead = some (-100) := by
  refine ⟨by decide, by decide, by decide⟩

/-- C9 (amended): `transaction_duration = end - start` and, when
`target_request_duration` is present and nonzero,
`transaction_total_overhead = duration - target_request_duration`; neither
is clamped at 0, and the overhead stays absent when the target duration is
absent or zero (JS truthiness). -/
theorem C9_durations_computed_unclamped (s e d : Int) (hd : d ≠ 0) :
    (finalizeTransaction s e (some d)).transactionDuration = e - s
    ∧ (finalizeTransaction s e (some d)).transactionTotalOverhead = some (e - s - d)
    ∧ (finalizeTransaction s e none).transactionTotalOverhead = none
    ∧ (finalizeTransaction s e (some 0)).transactionTotalOverhead = none := by
  refine ⟨rfl, ?_, rfl, ?_⟩
  · simp [finalizeTransaction, hd]
  · simp [finalizeTransaction]

/-- C9 (witness). -/
theorem C9_durations_computed_unclamped_witness :
    (finalizeTransaction 10 25 (some 4)).transactionDuration = 25 - 10
    ∧ (finalizeTransaction 10 25 (some 4)).transactionTotalOverhead = some (25 - 10 - 4)
    ∧ (finalizeTransaction 10 25 none).transactionTotalOverhead = none
    ∧ (finalizeTransaction 10 25 (some 0)).transactionTotalOverhead = none :=
  C9_durations_computed_unclamped 10 25 4 (by decide)

/-- C1 (the code evaluated at the failing input): a route whose only
pre-processing middleware `block` returns action `cancel`, no
authentication strategy, and one forward target. The pipeline does stop at
the cancelling handler and the transaction is marked cancelled - but with
the default reason `Cancelled by block` rather than the documented
`middleware_cancelled:block` - and the `400 Request cancelled` response the
loop builds is then discarded: the handler still authenticates and
dispatches, so the upstream fetch runs (body `upstream`) and its 200
response is what the client receives. -/
theorem C1_middleware_cancel_dispatch_still_runs :
    requestHandler
      ⟨[⟨"block", some (fun _ => ⟨some .cancel, none, []⟩)⟩], 0, none, .success 200,
       fun _ => false⟩
      [{ hostname := "localhost", path := "", timeout := none,
         middlewares := ⟨["block"], []⟩, loadBalancingStrategy := none,
         authenticationStrategy := none, cacheStrategy := none,
         targets := [.forward "http://upstream.example"] }]
      "localhost" "/" "" none []
    = .ok (⟨200, .upstream "http://upstream.example/", none⟩,
           ⟨true, some "Cancelled by block", some "forward"⟩) := rfl

/-- C4 (counterexample): neither half of the claim holds on the code. An
authenticated `POST /routes` whose body fails schema validation does not
produce a 400 response with the validation errors - `setRoutingTable`
throws, `apiRequestHandler` has no catch, and the exception escapes the
handler (an `Except.error`, surfaced by Bun's default error handling as an
internal error, not a 400). And a body that passes validation is not
always answered `200 OK`: with the schema-valid table whose forward url is
`http://`, `prefetchDns` throws after storing the snapshot and the
exception escapes likewise. -/
theorem C4_counterexample_invalid_body_throws_no_400 :
    apiRequestHandler fmtsAll urlHostSample (some "secret") "POST" "/routes"
      (some "Bearer secret") (Json.str "not-a-table") ⟨none⟩
      = .error "Failed to set the routing table"
    ∧ validateRoutingTableSchema fmtsAll sampleBadUrlTable = true
    ∧ apiRequestHandler fmtsAll urlHostSample (some "secret") "POST" "/routes"
      (some "Bearer secret") sampleBadUrlTable ⟨none⟩
      = .error "Failed to set the routing table" :=
  ⟨rfl, rfl, rfl⟩

/-- C4 (amended): for an authenticated `POST /routes` (a request whose
Authorization header carries a nonempty second space-separated token equal
to the configured key), a body passing schema validation whose forward
urls all parse under the WHATWG URL constructor is stored and answered
`200 OK` (propagation to workers is a non-failing side effect); a body
failing validation makes `setRoutingTable` throw and the handler
propagates the exception instead of answering 400 with the error list; a
body passing validation with some WHATWG-unparseable forward url is stored
and then the DNS-prefetch exception propagates instead of a 200. -/
theorem C4_api_post_routes_validation (fmts : Formats)
    (urlHost : String → Option String) (k hdr : String) (body : Json)
    (st : StoreState) (htok : (splitOnChar ' ' hdr)[1]? = some k) (hk : k ≠ "") :
    (validateRoutingTableSchema fmts body = true →
     prefetchDnsThrows urlHost body = false →
      apiRequestHandler fmts urlHost (some k) "POST" "/routes" (some hdr) body st
        = .ok (⟨200, .text "OK"⟩, ⟨some body⟩))
    ∧ (validateRoutingTableSchema fmts body = false →
      apiRequestHandler fmts urlHost (some k) "POST" "/routes" (some hdr) body st
        = .error "Failed to set the routing table")
    ∧ (validateRoutingTableSchema fmts body = true →
       prefetchDnsThrows urlHost body = true →
      apiRequestHandler fmts urlHost (some k) "POST" "/routes" (some hdr) body st
        = .error "Failed to set the routing table") := by
  refine ⟨?_, ?_, ?_⟩
  · intro h hp
    simp [apiRequestHandler, htok, hk, setRoutingTable, h, hp,
      (by decide : strStartsWith "/routes" "/explorer" = false)]
  · intro h
    simp [apiRequestHandler, htok, hk, setRoutingTable, h,
      (by decide : strStartsWith "/routes" "/explorer" = false)]
  · intro h hp
    simp [apiRequestHandler, htok, hk, setRoutingTable, h, hp,
      (by decide : strStartsWith "/routes" "/explorer" = false)]

/-- C4 (witness). -/
theorem C4_api_post_routes_validation_witness :
    apiRequestHandler fmtsAll urlHostSample (some "secret") "POST" "/routes"
      (some "Bearer secret") sampleValidTable ⟨none⟩
      = .ok (⟨200, .text "OK"⟩, ⟨some sampleValidTable⟩)
    ∧ apiRequestHandler fmtsAll urlHostSample (some "secret") "POST" "/routes"
      (some "Bearer secret") sampleInvalidTable ⟨none⟩
      = .error "Failed to set the routing table"
    ∧ apiRequestHandler fmtsAll urlHostSample (some "secret") "POST" "/routes"
      (some "Bearer secret") sampleBadUrlTable ⟨none⟩
      = .error "Failed to set the routing table" :=
  ⟨(C4_api_post_routes_validation fmtsAll urlHostSample "secret" "Bearer secret"
      sampleValidTable ⟨none⟩ (by rfl) (by decide)).1 (by rfl) (by rfl),
   (C4_api_post_routes_validation fmtsAll urlHostSample "secret" "Bearer secret"
      sampleInvalidTable ⟨none⟩ (by rfl) (by decide)).2.1 (by rfl),
   (C4_api_post_routes_validation fmtsAll urlHostSample "secret" "Bearer secret"
      sampleBadUrlTable ⟨none⟩ (by rfl) (by decide)).2.2 (by rfl) (by rfl)⟩

/-- C8 (counterexample): a malformed Authorization header does not produce
a 401. With the header `Basic` (no credentials token), the source calls
`atob(undefined)`, i.e. `atob("undefined")`, which throws
`InvalidCharacterError`; the exception escapes `basicAuthenticationMiddleware`
(and the request handler rethrows, so Bun's error handler answers 500). -/
theorem C8_counterexample_malformed_header_throws :
    basicAuthenticationMiddleware "localhost" "user" "pass" (some "Basic") = .error ()
    ∧ basicAuthenticationMiddleware "localhost" "user" "pass" (some "Basic")
      ≠ .ok (some (authFailedResponse "localhost")) :=
  ⟨rfl, fun h => Except.noConfusion h⟩

/-- C8 (amended): a missing Authorization header yields 401 `Not authorized`
with `WWW-Authenticate: Basic realm="<request hostname>"`; a header whose
second space-separated token decodes under forgiving base64 is accepted
exactly when the decoded string's first two colon-fields equal the
configured username and password (the same 401 otherwise, the scheme word
never checked); a header whose second token is not forgiving-base64 makes
the handler throw (surfacing as 500), instead of the claimed 401. -/
theorem C8_basic_auth_gate (hostname u p hdr tok d hdr2 tok2 : String)
    (htok : (splitOnChar ' ' hdr)[1]? = some tok)
    (hdec : atob tok = some d)
    (htok2 : (splitOnChar ' ' hdr2)[1]? = some tok2)
    (hbad : atob tok2 = none) :
    basicAuthenticationMiddleware hostname u p none = .ok (some (authFailedResponse hostname))
    ∧ (if (splitOnChar ':' d)[0]?.getD "" ≠ u ∨ (splitOnChar ':' d)[1]? ≠ some p
       then basicAuthenticationMiddleware hostname u p (some hdr)
            = .ok (some (authFailedResponse hostname))
       else basicAuthenticationMiddleware hostname u p (some hdr) = .ok none)
    ∧ basicAuthenticationMiddleware hostname u p (some hdr2) = .error ()
    ∧ (authFailedResponse hostname).status = 401
    ∧ (authFailedResponse hostname).wwwAuthenticate
      = some ("Basic realm=\"" ++ hostname ++ "\"") := by
  refine ⟨rfl, ?_, ?_, rfl, rfl⟩
  · simp only [basicAuthenticationMiddleware, htok, Option.getD_some, hdec]
    split
    · rfl
    · rfl
  · simp only [basicAuthenticationMiddleware, htok2, Option.getD_some, hbad]

/-- C8 (witness): correct credentials `user:pass` pass the gate; the header
`Basic !!!` (second token not base64) throws. -/
theorem C8_basic_auth_gate_witness :
    basicAuthenticationMiddleware "localhost" "user" "pass" none
      = .ok (some (authFailedResponse "localhost"))
    ∧ (if (splitOnChar ':' "user:pass")[0]?.getD "" ≠ "user"
          ∨ (splitOnChar ':' "user:pass")[1]? ≠ some "pass"
       then basicAuthenticationMiddleware "localhost" "user" "pass"
              (some "Basic dXNlcjpwYXNz")
            = .ok (some (authFailedResponse "localhost"))
       else basicAuthenticationMiddleware "localhost" "user" "pass"
              (some "Basic dXNlcjpwYXNz") = .ok none)
    ∧ basicAuthenticationMiddleware "localhost" "user" "pass" (some "Basic !!!") = .error ()
    ∧ (authFailedResponse "localhost").status = 401
    ∧ (authFailedResponse "localhost").wwwAuthenticate
      = some ("Basic realm=\"" ++ "localhost" ++ "\"") :=
  C8_basic_auth_gate "localhost" "user" "pass" "Basic dXNlcjpwYXNz" "dXNlcjpwYXNz"
    "user:pass" "Basic !!!" "!!!" (by rfl) (by rfl) (by rfl) (by rfl)

/-- C10 (counterexample): with the configured key `secret` and the header
`Bearer  secret` (two spaces), the second whitespace-separated token is
`secret` and equals the key, so the claim says authentication succeeds; the
code splits on single spaces, finds the empty string as `split(' ')[1]`,
and rejects the request with `401 Not authorized. Missing API key`. -/
theorem C10_counterexample_double_space_rejected :
    (whitespaceTokens "Bearer  secret")[1]? = some "secret"
    ∧ apiRequestHandler fmtsAll urlHostSample (some "secret") "GET" "/routes"
        (some "Bearer  secret") (Json.arr []) ⟨none⟩
      = .ok (⟨401, .text "Not authorized. Missing API key"⟩, ⟨none⟩) :=
  ⟨rfl, rfl⟩

/-- C10 (amended): management-API authentication succeeds exactly when the
Authorization header's second single-space-separated field is nonempty and
equals the configured key; the scheme word is never checked, so `Basic
secret` is treated identically to `Bearer secret`. -/
theorem C10_api_key_second_space_field_scheme_ignored (fmts : Formats)
    (urlHost : String → Option String) (key hdr : String)
    (body : Json) (st : StoreState) :
    (apiRequestHandler fmts urlHost (some key) "GET" "/routes" (some hdr) body st
       = .ok (⟨200, .json (getRoutingTable st)⟩, st)
     ↔ ((splitOnChar ' ' hdr)[1]? = some key ∧ key ≠ ""))
    ∧ apiRequestHandler fmts urlHost (some "secret") "GET" "/routes" (some "Basic secret")
        body st
      = apiRequestHandler fmts urlHost (some "secret") "GET" "/routes" (some "Bearer secret")
        body st := by
  constructor
  · constructor
    · intro hok
      simp only [apiRequestHandler,
        (by decide : strStartsWith "/routes" "/explorer" = false)] at hok
      rcases h1 : (splitOnChar ' ' hdr)[1]? with _ | tok
      · rw [h1] at hok
        simp at hok
      · rw [h1] at hok
        by_cases h2 : tok = ""
        · simp [h2] at hok
        · by_cases h3 : tok = key
          · subst h3
            exact ⟨rfl, h2⟩
          · simp [h2, h3] at hok
    · rintro ⟨htok, hk⟩
      simp [apiRequestHandler, htok, hk,
        (by decide : strStartsWith "/routes" "/explorer" = false)]
  · rfl

/-! ### Lemmas for C5 (static dispatch stays inside the directory) -/

theorem splitListOn_ne_nil (p : Char → Bool) (l : List Char) : splitListOn p l ≠ [] := by
  induction l with
  | nil => simp [splitListOn]
  | cons c cs ih =>
    rw [splitListOn]
    split
    · simp
    · cases h : splitListOn p cs with
      | nil => exact absurd h ih
      | cons s ss => simp [h]

theorem headD_mem {α : Type} (l : List α) (d : α) (h : l ≠ []) : l.headD d ∈ l := by
  cases l with
  | nil => exact absurd rfl h
  | cons a as => simp [List.headD]

theorem splitListOn_cons_sep (p : Char → Bool) (c : Char) (cs : List Char)
    (hc : p c = true) : splitListOn p (c :: cs) = [] :: splitListOn p cs := by
  rw [splitListOn, if_pos hc]

theorem splitListOn_cons_not_sep (p : Char → Bool) (c : Char) (cs : List Char)
    (hc : p c = false) :
    splitListOn p (c :: cs)
      = (c :: (splitListOn p cs).headD []) :: (splitListOn p cs).tail := by
  rw [splitListOn, if_neg (by simp [hc])]
  cases h : splitListOn p cs with
  | nil => exact absurd h (splitListOn_ne_nil p cs)
  | cons s ss => simp

/-- Splitting distributes over an occurrence of a separator. -/
theorem splitListOn_append_sep (p : Char → Bool) (a b : List Char) (c : Char)
    (hc : p c = true) :
    splitListOn p (a ++ c :: b) = splitListOn p a ++ splitListOn p b := by
  induction a with
  | nil =>
    rw [List.nil_append, splitListOn_cons_sep p c b hc]
    rfl
  | cons x a ih =>
    by_cases hx : p x = true
    · rw [List.cons_append, splitListOn_cons_sep p x _ hx, ih,
        splitListOn_cons_sep p x a hx]
      rfl
    · have hx2 : p x = false := by simpa using hx
      rw [List.cons_append, splitListOn_cons_not_sep p x _ hx2, ih,
        splitListOn_cons_not_sep p x a hx2]
      cases h : splitListOn p a with
      | nil => exact absurd h (splitListOn_ne_nil p a)
      | cons s ss => simp [h]

/-- No segment produced by splitting contains a separator. -/
theorem splitListOn_sep_not_mem (p : Char → Bool) (l : List Char) :
    ∀ s ∈ splitListOn p l, ∀ c ∈ s, p c = false := by
  induction l with
  | nil =>
    intro s hs c hc
    simp [splitListOn] at hs
    subst hs
    simp at hc
  | cons x xs ih =>
    intro s hs c hc
    by_cases hx : p x = true
    · rw [splitListOn_cons_sep p x xs hx] at hs
      rcases List.mem_cons.mp hs with rfl | hs
      · simp at hc
      · exact ih s hs c hc
    · have hx2 : p x = false := by simpa using hx
      rw [splitListOn_cons_not_sep p x xs hx2] at hs
      rcases List.mem_cons.mp hs with rfl | hs
      · rcases List.mem_cons.mp hc with rfl | hc
        · exact hx2
        · exact ih _ (headD_mem _ [] (splitListOn_ne_nil p xs)) c hc
      · exact ih s (List.mem_of_mem_tail hs) c hc

/-- Splitting a separator-free list is the identity. -/
theorem splitListOn_no_sep (p : Char → Bool) (s : List Char)
    (h : ∀ c ∈ s, p c = false) : splitListOn p s = [s] := by
  induction s with
  | nil => rfl
  | cons c cs ih =>
    rw [splitListOn_cons_not_sep p c cs (h c (List.mem_cons_self c cs)),
      ih (fun x hx => h x (List.mem_cons_of_mem c hx))]
    rfl

/-- Splitting a concatenation whose left part is separator-free merges the
left part into the first segment of the right part. -/
theorem splitListOn_append_no_sep (p : Char → Bool) (s e : List Char)
    (h : ∀ c ∈ s, p c = false) :
    splitListOn p (s ++ e)
      = (s ++ (splitListOn p e).headD []) :: (splitListOn p e).tail := by
  induction s with
  | nil =>
    cases he : splitListOn p e with
    | nil => exact absurd he (splitListOn_ne_nil p e)
    | cons s0 ss => simp [he]
  | cons c cs ih =>
    rw [List.cons_append, splitListOn_cons_not_sep p c (cs ++ e)
      (h c (List.mem_cons_self c cs)),
      ih (fun x hx => h x (List.mem_cons_of_mem c hx))]
    simp

/-- A segment that is neither a single- nor a double-dot segment is not the
literal dot or dot-dot. -/
theorem not_dot_of_not_dotSeg (s : Seg) (h1 : ¬ isDoubleDotSeg s = true)
    (h2 : ¬ isSingleDotSeg s = true) : s ≠ ['.'] ∧ s ≠ ['.', '.'] := by
  constructor
  · intro hdot
    subst hdot
    exact h2 (by decide)
  · intro hdot
    subst hdot
    exact h1 (by decide)

/-- Every segment the WHATWG path state outputs is free of separators and is
not a literal dot or dot-dot segment (given the same about the
accumulator). -/
theorem urlSegsAux_good (l : List Seg) : ∀ acc : List Seg,
    (∀ s ∈ acc, ('/' : Char) ∉ s ∧ s ≠ ['.'] ∧ s ≠ ['.', '.']) →
    (∀ s ∈ l, ('/' : Char) ∉ s) →
    ∀ s ∈ urlSegsAux acc l, ('/' : Char) ∉ s ∧ s ≠ ['.'] ∧ s ≠ ['.', '.'] := by
  induction l with
  | nil =>
    intro acc hacc _ s hs
    rw [urlSegsAux] at hs
    exact hacc s (List.mem_reverse.mp hs)
  | cons seg rest ih =>
    intro acc hacc hl s hs
    cases rest with
    | nil =>
      rw [urlSegsAux] at hs
      split at hs
      · rcases List.mem_append.mp hs with hs | hs
        · exact hacc s (List.mem_of_mem_drop (List.mem_reverse.mp hs))
        · simp at hs
          subst hs
          exact ⟨by simp, by simp, by simp⟩
      · split at hs
        · rcases List.mem_append.mp hs with hs | hs
          · exact hacc s (List.mem_reverse.mp hs)
          · simp at hs
            subst hs
            exact ⟨by simp, by simp, by simp⟩
        · rcases List.mem_append.mp hs with hs | hs
          · exact hacc s (List.mem_reverse.mp hs)
          · simp at hs
            obtain ⟨d1, d2⟩ := not_dot_of_not_dotSeg seg (by assumption) (by assumption)
            rw [hs]
            exact ⟨hl seg (List.mem_cons_self seg []), d1, d2⟩
    | cons seg2 rest2 =>
      rw [urlSegsAux] at hs
      split at hs
      · exact ih (acc.drop 1)
          (fun t ht => hacc t (List.mem_of_mem_drop ht))
          (fun t ht => hl t (List.mem_cons_of_mem seg ht)) s hs
      · split at hs
        · exact ih acc hacc (fun t ht => hl t (List.mem_cons_of_mem seg ht)) s hs
        · refine ih (seg :: acc) ?_ (fun t ht => hl t (List.mem_cons_of_mem seg ht)) s hs
          intro t ht
          obtain ⟨d1, d2⟩ := not_dot_of_not_dotSeg seg (by assumption) (by assumption)
          rcases List.mem_cons.mp ht with heq | ht
          · rw [heq]
            exact ⟨hl seg (List.mem_cons_self seg (seg2 :: rest2)), d1, d2⟩
          · exact hacc t ht

/-- Decomposition of an append equal to the two-character segment `..`. -/
theorem append_eq_dotdot (s f : List Char) (h : s ++ f = ['.', '.']) :
    (s = [] ∧ f = ['.', '.']) ∨ (s = ['.'] ∧ f = ['.']) ∨ (s = ['.', '.'] ∧ f = []) := by
  rcases s with _ | ⟨a, _ | ⟨b, _ | ⟨c, s⟩⟩⟩ <;> simp_all

/-- Joining good URL segments and appending an index whose own segments are
never `..` yields a character list none of whose `/`-separated segments is
`..`. -/
theorem no_dotdot_join (L : List Seg) (e : List Char)
    (hL : ∀ s ∈ L, ('/' : Char) ∉ s ∧ s ≠ ['.'] ∧ s ≠ ['.', '.'])
    (he : ∀ s ∈ splitListOn (fun c => c = '/') e, s ≠ ['.', '.']) :
    ∀ s ∈ splitListOn (fun c => c = '/') (joinSegs L ++ e), s ≠ ['.', '.'] := by
  induction L with
  | nil =>
    rw [joinSegs, List.nil_append]
    exact he
  | cons s0 L0 ih =>
    cases L0 with
    | nil =>
      rw [joinSegs]
      obtain ⟨hsep, hdot1, hdot2⟩ := hL s0 (List.mem_cons_self s0 [])
      have hfree : ∀ c ∈ s0, (fun c => decide (c = '/')) c = false := by
        intro c hc
        simp
        rintro rfl
        exact hsep hc
      rw [splitListOn_append_no_sep _ s0 e hfree]
      intro s hs
      rcases List.mem_cons.mp hs with hs | hs
      · subst hs
        intro hcontra
        rcases append_eq_dotdot _ _ hcontra with ⟨h1, h2⟩ | ⟨h1, h2⟩ | ⟨h1, h2⟩
        · exact he _ (headD_mem _ [] (splitListOn_ne_nil _ e)) h2
        · exact hdot1 h1
        · exact hdot2 h1
      · exact he s (List.mem_of_mem_tail hs)
    | cons s1 L1 =>
      rw [joinSegs]
      obtain ⟨hsep, hdot1, hdot2⟩ := hL s0 (List.mem_cons_self s0 (s1 :: L1))
      have hfree : ∀ c ∈ s0, (fun c => decide (c = '/')) c = false := by
        intro c hc
        simp
        rintro rfl
        exact hsep hc
      have hassoc : (s0 ++ '/' :: joinSegs (s1 :: L1)) ++ e
          = s0 ++ '/' :: (joinSegs (s1 :: L1) ++ e) := by
        simp
      rw [hassoc, splitListOn_append_sep _ s0 (joinSegs (s1 :: L1) ++ e) '/' (by simp),
        splitListOn_no_sep _ s0 hfree]
      intro s hs
      rcases List.mem_append.mp hs with hs | hs
      · simp at hs
        subst hs
        exact hdot2
      · exact ih (fun t ht => hL t (List.mem_cons_of_mem s0 ht)) s hs

/-- Folding the filesystem normalisation over segments that are never `..`
only pushes: the starting accumulator survives as a suffix. -/
theorem fsNorm_append_no_dotdot (S : List Seg) (hS : ∀ s ∈ S, s ≠ ['.', '.']) :
    ∀ acc : List Seg, ∃ pre, S.foldl fsNormStep acc = pre ++ acc := by
  induction S with
  | nil =>
    intro acc
    exact ⟨[], rfl⟩
  | cons s S0 ih =>
    intro acc
    have hs := hS s (List.mem_cons_self s S0)
    have ihS0 := ih (fun t ht => hS t (List.mem_cons_of_mem s ht))
    rw [List.foldl_cons]
    by_cases h1 : s = [] ∨ s = ['.']
    · rw [show fsNormStep acc s = acc from by unfold fsNormStep; rw [if_pos h1]]
      exact ihS0 acc
    · rw [show fsNormStep acc s = s :: acc from by
        unfold fsNormStep
        rw [if_neg h1, if_neg hs]]
      obtain ⟨pre, hpre⟩ := ihS0 (s :: acc)
      exact ⟨pre ++ [s], by simp [hpre]⟩

theorem isPrefixOf_append_self (A B : List Seg) : A.isPrefixOf (A ++ B) = true := by
  induction A with
  | nil => simp [List.isPrefixOf]
  | cons a A0 ih => simp [List.isPrefixOf, ih]

/-- C5 (counterexample): no traversal check exists in the source, and a
configured index file containing `..` segments escapes the target
directory: with directory `./fixtures` and index `../../etc/passwd`, a
request for `/` resolves to `./fixtures/../../etc/passwd`, which is not a
descendant of the directory after normalisation, yet the file is served
when it exists. -/
theorem C5_counterexample_index_with_dotdot_escapes_and_served :
    isDescendant "./fixtures"
      (staticResolvedPath "./fixtures" (some "../../etc/passwd") (urlNormalizePathname "/"))
      = false
    ∧ staticResolvedPath "./fixtures" (some "../../etc/passwd") (urlNormalizePathname "/")
      = "./fixtures/../../etc/passwd"
    ∧ staticDispatch "./fixtures" (some "../../etc/passwd") (urlNormalizePathname "/")
        allFilesExist
      = ⟨200, .file "./fixtures/../../etc/passwd", none⟩ := by
  refine ⟨by decide, by decide, by decide⟩

/-- C5 (amended): the request path can never escape the target directory,
because the WHATWG URL parser removes every dot segment from the pathname
before dispatch; consequently, whenever the configured index file has no
`..` segment (as the default `index.html` does not), every file the static
dispatch serves is a descendant of the target directory after
normalisation. The source performs no traversal check of its own, and an
operator-configured index containing `..` segments can escape (see the
counterexample). -/
theorem C5_static_dispatch_serves_only_descendants
    (directory raw p : String) (index : Option String) (fileExists : String → Bool)
    (hidx : ∀ i, index = some i →
      ∀ s ∈ splitListOn (fun c => c = '/') i.data, s ≠ ['.', '.'])
    (hserve : (staticDispatch directory index (urlNormalizePathname raw) fileExists).body
      = RespBody.file p) :
    isDescendant directory p = true := by
  -- The served path is the resolved path.
  have hp : p = staticResolvedPath directory index (urlNormalizePathname raw) := by
    simp only [staticDispatch] at hserve
    split at hserve
    · injection hserve with h
      exact h.symm
    · exact RespBody.noConfusion hserve
  subst hp
  -- Unfold the resolved path into directory ++ '/' ++ (segments ++ index).
  unfold staticResolvedPath urlNormalizePathname
  set L := urlNormSegs raw with hL
  set eff : String :=
    (if (⟨'/' :: joinSegs L⟩ : String) = "/" ∨ strEndsWith ⟨'/' :: joinSegs L⟩ "/"
     then jsOr index "index.html" else "") with heff
  -- The effective index has no `..` segment.
  have he : ∀ s ∈ splitListOn (fun c => c = '/') eff.data, s ≠ ['.', '.'] := by
    rw [heff]
    split
    · unfold jsOr
      cases index with
      | none => decide
      | some i =>
        by_cases hi : i = ""
        · simp only [hi, if_pos rfl]
          decide
        · simp only [if_neg hi]
          exact hidx i rfl
    · decide
  -- The normalised URL segments are good.
  have hgood : ∀ s ∈ L, ('/' : Char) ∉ s ∧ s ≠ ['.'] ∧ s ≠ ['.', '.'] := by
    rw [hL]
    unfold urlNormSegs
    refine urlSegsAux_good _ [] (by simp) ?_
    intro s hs hmem
    have := splitListOn_sep_not_mem urlSep (dropLeadingSlash raw.data) s hs '/' hmem
    simp [urlSep] at this
  -- Segment decomposition of the resolved path.
  have hdata : (directory ++ (⟨'/' :: joinSegs L⟩ : String) ++ eff).data
      = directory.data ++ '/' :: (joinSegs L ++ eff.data) := by
    show (directory.data ++ ('/' :: joinSegs L)) ++ eff.data = _
    simp
  unfold isDescendant fsSegs
  rw [hdata, splitListOn_append_sep _ directory.data (joinSegs L ++ eff.data) '/' (by simp)]
  -- The suffix segments are never `..`, so normalisation extends the
  -- directory's normal form.
  have hsuffix := no_dotdot_join L eff.data hgood he
  unfold fsNormSegs
  rw [List.foldl_append]
  obtain ⟨pre, hpre⟩ := fsNorm_append_no_dotdot _ hsuffix
    (List.foldl fsNormStep [] (splitListOn (fun c => c = '/') directory.data))
  rw [hpre, List.reverse_append]
  exact isPrefixOf_append_self _ _

/-- C5 (witness): with directory `./fixtures`, no configured index, and the
raw request path `/docs/../logo.png` (normalised to `/logo.png`), the
served path `./fixtures/logo.png` is a descendant of the directory. -/
theorem C5_static_dispatch_serves_only_descendants_witness :
    isDescendant "./fixtures" "./fixtures/logo.png" = true :=
  C5_static_dispatch_serves_only_descendants "./fixtures" "/docs/../logo.png"
    "./fixtures/logo.png" none allFilesExist (fun i hi => nomatch hi) (by decide)

end Maegashira
